import Mathlib

/-!
Verification development for the olympiadquiz platform.

The definitions below are a shallow embedding of the Python sources:
`quiz_utils.py` (quiz session engine and scoring), `database.py`
(user repository and attempt store) and `admin_utils.py` (bulk import
and question editing).  Database tables are modelled as lists of row
records, SQLAlchemy queries as list operations, and Python's `sorted`
as the stable `List.mergeSort`.  Python's `dict.get(i, -1)` on the
user-answer map is modelled with `List.lookup` and a `-1 : Int`
default.  A Python expression that can raise (the division in
`submit_quiz_results`) is modelled as an `Option`, `none` standing
for the raised exception.
-/

namespace OlympiadQuiz

/-- Row of the `answer` table (`models.py`, class `Answer`). -/
structure Answer where
  id : Nat
  text : String
  is_correct : Bool
  deriving Repr, DecidableEq

/-- Row of the `question` table together with its answers
(`models.py`, class `Question`; `explanation` is a nullable column). -/
structure Question where
  id : Nat
  question : String
  explanation : Option String
  answers : List Answer
  deriving Repr, DecidableEq

/-- Quiz row with its question list (`models.py`, class `Quiz`). -/
structure Quiz where
  id : Nat
  title : String
  description : String
  time_limit : Nat
  questions : List Question
  deriving Repr, DecidableEq

/-- Recorded answers of a session: `st.session_state.user_answers`, a
Python dict keyed by question position with 0-based option index values.
Modelled as an association list with distinct keys. -/
abbrev AnswerMap := List (Nat × Nat)

/-- One element of the `results` list built by `submit_quiz_results`
(`quiz_utils.py` lines 432-439). -/
structure ResultRecord where
  question_id : Nat
  question : String
  user_answer : Int
  correct_answer : Nat
  is_correct : Bool
  explanation : String
  deriving Repr, DecidableEq

/-- Embedding of `sorted(question.answers, key=lambda x: x.id)`
(`quiz_utils.py` line 424): stable sort by ascending `id`. -/
def sortedAnswers (q : Question) : List Answer :=
  q.answers.mergeSort (fun a b => a.id ≤ b.id)

/-- Embedding of
`next((idx for idx, a in enumerate(answers) if a.is_correct), 0)`
(`quiz_utils.py` line 425): index of the first answer flagged
`is_correct` in the id-sorted list, defaulting to 0. -/
def correctIndex (q : Question) : Nat :=
  ((sortedAnswers q).findIdx? (fun a => a.is_correct)).getD 0

/-- Embedding of `user_answers.get(i, -1)` (`quiz_utils.py` line 426). -/
def recordedAnswer (ua : AnswerMap) (i : Nat) : Int :=
  match List.lookup i ua with
  | some v => (v : Int)
  | none => -1

/-- One iteration of the scoring loop of `submit_quiz_results`
(`quiz_utils.py` lines 423-439) for question `q` at snapshot position
`i`: builds the result record appended to `results`. -/
def gradeQuestion (ua : AnswerMap) (i : Nat) (q : Question) : ResultRecord :=
  { question_id := q.id
    question := q.question
    user_answer := recordedAnswer ua i
    correct_answer := correctIndex q
    is_correct := recordedAnswer ua i == (correctIndex q : Int)
    explanation := q.explanation.getD "" }

/-- The scoring loop of `submit_quiz_results` over the enumerated
question snapshot: returns the final `score` accumulator and the
`results` list in loop order. -/
def submitGo (ua : AnswerMap) : List (Nat × Question) → Nat × List ResultRecord
  | [] => (0, [])
  | (i, q) :: rest =>
    let r := gradeQuestion ua i q
    let p := submitGo ua rest
    ((if r.is_correct then 1 else 0) + p.1, r :: p.2)

/-- Score and per-question results computed by `submit_quiz_results`
(`quiz_utils.py` lines 417-439) from the session's question snapshot
`questions` and recorded answers `ua`. -/
def submitQuizResultsCore (ua : AnswerMap) (questions : List Question) :
    Nat × List ResultRecord :=
  submitGo ua questions.enum

/-- Embedding of `percentage = (score / len(questions)) * 100`
(`quiz_utils.py` line 443).  Python raises `ZeroDivisionError` when the
snapshot is empty; that failure is modelled by `none`. -/
def submitPercentage (score : Nat) (questions : List Question) : Option ℚ :=
  if questions.length = 0 then none
  else some ((score : ℚ) / (questions.length : ℚ) * 100)

/-- Embedding of the submit-button guard of `take_quiz`
(`quiz_utils.py` lines 391-396): the enabled `Submit Quiz` button is
rendered only when `len(st.session_state.user_answers) ==
len(questions)`; otherwise a disabled `N Unanswered` button is shown. -/
def submitButtonEnabled (ua : AnswerMap) (questions : List Question) : Bool :=
  List.length ua == questions.length

/-- Embedding of
`remaining_time = max(0, (quiz.time_limit * 60) - elapsed_time)`
(`quiz_utils.py` line 326). -/
def remainingTime (time_limit : Nat) (elapsed : Nat) : Int :=
  max 0 ((time_limit * 60 : Int) - (elapsed : Int))

/-- Embedding of the auto-submit check `if remaining_time <= 0`
(`quiz_utils.py` line 339). -/
def autoSubmitTriggered (time_limit : Nat) (elapsed : Nat) : Bool :=
  remainingTime time_limit elapsed ≤ 0

/-- Scoring outcome of the timeout path of `take_quiz`
(`quiz_utils.py` lines 339-342): the path calls `submit_quiz_results`
on the very session state. -/
def autoSubmitOutcome (ua : AnswerMap) (questions : List Question) :
    Nat × List ResultRecord :=
  submitQuizResultsCore ua questions

/-- Scoring outcome of the manual submit path of `take_quiz`
(`quiz_utils.py` lines 391-393): the button handler calls the same
`submit_quiz_results` on the same session state. -/
def manualSubmitOutcome (ua : AnswerMap) (questions : List Question) :
    Nat × List ResultRecord :=
  submitQuizResultsCore ua questions

/-- Row of the `user` table (`models.py`, class `User`). -/
structure UserRow where
  id : Nat
  username : String
  password_hash : String
  is_admin : Bool
  deriving Repr, DecidableEq

/-- Row of the `quiz_attempt` table (`models.py`, class `QuizAttempt`);
`date` is the creation timestamp. -/
structure AttemptRow where
  id : Nat
  user_id : Nat
  quiz_id : Nat
  score : Nat
  total_questions : Nat
  time_taken : Nat
  date : Nat
  results : List ResultRecord
  deriving Repr, DecidableEq

/-- Row of the `subject` table (`models.py`, class `Subject`). -/
structure SubjectRow where
  id : Nat
  name : String
  deriving Repr, DecidableEq

/-- Row of the `topic` table (`models.py`, class `Topic`). -/
structure TopicRow where
  id : Nat
  name : String
  subject_id : Nat
  deriving Repr, DecidableEq

/-- Row of the `class` table (`models.py`, class `Class`). -/
structure ClassRow where
  id : Nat
  name : String
  topic_id : Nat
  deriving Repr, DecidableEq

/-- Row of the `level` table (`models.py`, class `Level`). -/
structure LevelRow where
  id : Nat
  name : String
  class_id : Nat
  deriving Repr, DecidableEq

/-- Row of the `quiz` table (`models.py`, class `Quiz`). -/
structure QuizRow where
  id : Nat
  title : String
  description : String
  time_limit : Nat
  level_id : Nat
  deriving Repr, DecidableEq

/-- Row of the `question` table (`models.py`, class `Question`); the
writers modelled here always store a string `explanation` (defaulted
to the empty string). -/
structure QuestionRow where
  id : Nat
  question : String
  quiz_id : Nat
  explanation : String
  deriving Repr, DecidableEq

/-- Row of the `answer` table as stored (`models.py`, class `Answer`). -/
structure AnswerRow where
  id : Nat
  text : String
  is_correct : Bool
  question_id : Nat
  deriving Repr, DecidableEq

/-- Relational state of the application: one list per table, plus the
id sequence feeding primary keys (SQLAlchemy assigns ids at flush). -/
structure DB where
  subjects : List SubjectRow
  topics : List TopicRow
  classes : List ClassRow
  levels : List LevelRow
  quizzes : List QuizRow
  questions : List QuestionRow
  answers : List AnswerRow
  attempts : List AttemptRow
  users : List UserRow
  next_id : Nat
  deriving Repr, DecidableEq

/-- Embedding of `DatabaseManager.delete_user` (`database.py` lines
445-466): refuse when the target is an admin and the admin count is at
most one, otherwise remove the row. -/
def delete_user (users : List UserRow) (user_id : Nat) :
    (Bool × String) × List UserRow :=
  match users.find? (fun u => u.id == user_id) with
  | none => ((false, "User not found"), users)
  | some user =>
    if user.is_admin then
      if users.countP (fun u => u.is_admin) ≤ 1 then
        ((false, "Cannot delete the last admin user"), users)
      else
        ((true, "User deleted successfully"),
          users.filter (fun u => u.id != user_id))
    else
      ((true, "User deleted successfully"),
        users.filter (fun u => u.id != user_id))

/-- Embedding of `DatabaseManager.update_user` (`database.py` lines
402-426).  The duplicate-username check runs only when a username is
supplied and differs from the user's current one; on a duplicate the
function returns early and the table is unchanged. -/
def update_user (users : List UserRow) (user_id : Nat)
    (username : Option String) (is_admin : Option Bool) :
    (Bool × String) × List UserRow :=
  match users.find? (fun u => u.id == user_id) with
  | none => ((false, "User not found"), users)
  | some user =>
    let duplicate : Bool :=
      match username with
      | some un =>
        if un ≠ user.username then
          match users.find? (fun u => u.username == un) with
          | some existing => existing.id != user_id
          | none => false
        else false
      | none => false
    if duplicate then ((false, "Username already exists"), users)
    else
      ((true, "User updated successfully"),
        users.map (fun u =>
          if u.id == user_id then
            { u with
              username := match username with
                | some un => un
                | none => u.username
              is_admin := match is_admin with
                | some b => b
                | none => u.is_admin }
          else u))

/-- Embedding of `DatabaseManager.submit_quiz_attempt` (`database.py`
lines 245-265): one atomic insert of a new attempt row whose fields are
exactly the values passed by the session engine. -/
def submit_quiz_attempt (db : DB) (user_id quiz_id score total_questions
    time_taken date : Nat) (results : List ResultRecord) : DB × AttemptRow :=
  let row : AttemptRow :=
    { id := db.next_id, user_id := user_id, quiz_id := quiz_id,
      score := score, total_questions := total_questions,
      time_taken := time_taken, date := date, results := results }
  ({ db with attempts := db.attempts ++ [row], next_id := db.next_id + 1 }, row)

/-- Embedding of `DatabaseManager.get_user_quiz_attempts` (`database.py`
lines 267-287): the rows with matching `user_id` and `quiz_id`, ordered
by `date` descending. -/
def get_user_quiz_attempts (attempts : List AttemptRow)
    (user_id quiz_id : Nat) : List AttemptRow :=
  (attempts.filter (fun a => a.user_id == user_id && a.quiz_id == quiz_id)).mergeSort
    (fun a b => b.date ≤ a.date)

/-- Embedding of `DatabaseManager.get_all_quiz_attempts` (`database.py`
lines 289-306): every attempt row, ordered by `date` descending. -/
def get_all_quiz_attempts (attempts : List AttemptRow) : List AttemptRow :=
  attempts.mergeSort (fun a b => b.date ≤ a.date)

/-- Inner loop shared by the question writers (`admin_utils.py` lines
472-478 and 716-722 and 750-756): insert one answer row per option,
flagging position `correct_index` as correct; `i` is the running
`enumerate` counter. -/
def insertAnswerRows (db : DB) (question_id correct_index : Nat) :
    List String → Nat → DB
  | [], _ => db
  | o :: rest, i =>
    insertAnswerRows
      { db with
        answers := db.answers ++
          [{ id := db.next_id, text := o, is_correct := i == correct_index,
             question_id := question_id }],
        next_id := db.next_id + 1 }
      question_id correct_index rest (i + 1)

/-- Embedding of `add_question_to_quiz` (`admin_utils.py` lines
702-731): insert a question row, then its answer rows. -/
def add_question_to_quiz (db : DB) (quiz_id : Nat) (question_text : String)
    (options : List String) (correct_index : Nat) (explanation : String) : DB :=
  let qid := db.next_id
  let db1 := { db with
    questions := db.questions ++
      [{ id := qid, question := question_text, quiz_id := quiz_id,
         explanation := explanation }],
    next_id := db.next_id + 1 }
  insertAnswerRows db1 qid correct_index options 0

/-- Embedding of `update_question` (`admin_utils.py` lines 733-765):
rewrite the question text and explanation, drop the old answer rows and
insert the new ones. -/
def update_question (db : DB) (question_id : Nat) (question_text : String)
    (options : List String) (correct_index : Nat) (explanation : String) : DB :=
  match db.questions.find? (fun q => q.id == question_id) with
  | none => db
  | some _ =>
    let db1 := { db with
      questions := db.questions.map (fun q =>
        if q.id == question_id then
          { q with question := question_text, explanation := explanation }
        else q),
      answers := db.answers.filter (fun a => a.question_id != question_id) }
    insertAnswerRows db1 question_id correct_index options 0

/-- Embedding of `delete_question` (`admin_utils.py` lines 767-784):
delete the answer rows, then the question row. -/
def delete_question (db : DB) (question_id : Nat) : DB :=
  { db with
    answers := db.answers.filter (fun a => a.question_id != question_id),
    questions := db.questions.filter (fun q => q.id != question_id) }

/-- Question object of the bulk-import JSON document
(`admin_utils.py` lines 462-478; shape documented in the spec §6). -/
structure QuestionDoc where
  question : String
  options : List String
  answer : Nat
  explanation : Option String
  deriving Repr, DecidableEq

/-- Quiz object of the bulk-import document. -/
structure QuizDoc where
  title : String
  description : Option String
  time_limit : Option Nat
  questions : List QuestionDoc
  deriving Repr, DecidableEq

/-- Level object of the bulk-import document. -/
structure LevelDoc where
  name : String
  quizzes : List QuizDoc
  deriving Repr, DecidableEq

/-- Class object of the bulk-import document. -/
structure ClassDoc where
  name : String
  levels : List LevelDoc
  deriving Repr, DecidableEq

/-- Topic object of the bulk-import document. -/
structure TopicDoc where
  name : String
  classes : List ClassDoc
  deriving Repr, DecidableEq

/-- Subject object of the bulk-import document. -/
structure SubjectDoc where
  name : String
  topics : List TopicDoc
  deriving Repr, DecidableEq

/-- Embedding of the subject lookup of `process_quiz_upload`
(`admin_utils.py` lines 404-409): match by `name`, create if absent. -/
def getOrCreateSubject (db : DB) (name : String) : SubjectRow × DB :=
  match db.subjects.find? (fun s => s.name == name) with
  | some s => (s, db)
  | none =>
    let s : SubjectRow := { id := db.next_id, name := name }
    (s, { db with subjects := db.subjects ++ [s], next_id := db.next_id + 1 })

/-- Embedding of the topic lookup (`admin_utils.py` lines 413-417):
match by `name` and `subject_id`, create if absent. -/
def getOrCreateTopic (db : DB) (name : String) (subject_id : Nat) :
    TopicRow × DB :=
  match db.topics.find? (fun t => t.name == name && t.subject_id == subject_id) with
  | some t => (t, db)
  | none =>
    let t : TopicRow := { id := db.next_id, name := name, subject_id := subject_id }
    (t, { db with topics := db.topics ++ [t], next_id := db.next_id + 1 })

/-- Embedding of the class lookup (`admin_utils.py` lines 421-425):
match by `name` and `topic_id`, create if absent. -/
def getOrCreateClass (db : DB) (name : String) (topic_id : Nat) :
    ClassRow × DB :=
  match db.classes.find? (fun c => c.name == name && c.topic_id == topic_id) with
  | some c => (c, db)
  | none =>
    let c : ClassRow := { id := db.next_id, name := name, topic_id := topic_id }
    (c, { db with classes := db.classes ++ [c], next_id := db.next_id + 1 })

/-- Embedding of the level lookup (`admin_utils.py` lines 429-433):
match by `name` and `class_id`, create if absent. -/
def getOrCreateLevel (db : DB) (name : String) (class_id : Nat) :
    LevelRow × DB :=
  match db.levels.find? (fun l => l.name == name && l.class_id == class_id) with
  | some l => (l, db)
  | none =>
    let l : LevelRow := { id := db.next_id, name := name, class_id := class_id }
    (l, { db with levels := db.levels ++ [l], next_id := db.next_id + 1 })

/-- Inserts the question rows (and their answers) of a quiz document
(`admin_utils.py` lines 462-478). -/
def insertQuestionDocs (db : DB) (quiz_id : Nat) : List QuestionDoc → DB
  | [] => db
  | d :: rest =>
    let qid := db.next_id
    let db1 := { db with
      questions := db.questions ++
        [{ id := qid, question := d.question, quiz_id := quiz_id,
           explanation := d.explanation.getD "" }],
      next_id := db.next_id + 1 }
    let db2 := insertAnswerRows db1 qid d.answer d.options 0
    insertQuestionDocs db2 quiz_id rest

/-- Embedding of the per-quiz step of `process_quiz_upload`
(`admin_utils.py` lines 436-478).  An existing quiz (matched by `title`
and `level_id`) has its description and time limit overwritten and its
question rows (with their answer rows) deleted before the document's
questions are inserted; otherwise a new quiz row is created first. -/
def process_quiz_doc (db : DB) (level_id : Nat) (qd : QuizDoc) : DB :=
  match db.quizzes.find? (fun q => q.title == qd.title && q.level_id == level_id) with
  | some existing =>
    let oldQuestionIds :=
      (db.questions.filter (fun x => x.quiz_id == existing.id)).map (fun x => x.id)
    let db1 := { db with
      quizzes := db.quizzes.map (fun q =>
        if q.id == existing.id then
          { q with description := qd.description.getD "",
                   time_limit := qd.time_limit.getD 30 }
        else q),
      questions := db.questions.filter (fun x => x.quiz_id != existing.id),
      answers := db.answers.filter (fun a => !(oldQuestionIds.contains a.question_id)) }
    insertQuestionDocs db1 existing.id qd.questions
  | none =>
    let nq : QuizRow :=
      { id := db.next_id, title := qd.title,
        description := qd.description.getD "",
        time_limit := qd.time_limit.getD 30, level_id := level_id }
    let db1 := { db with quizzes := db.quizzes ++ [nq], next_id := db.next_id + 1 }
    insertQuestionDocs db1 nq.id qd.questions

/-- Folds `process_quiz_doc` over the quizzes of a level document. -/
def processQuizDocs (db : DB) (level_id : Nat) : List QuizDoc → DB
  | [] => db
  | qd :: rest => processQuizDocs (process_quiz_doc db level_id qd) level_id rest

/-- Processes one level document (`admin_utils.py` lines 428-478). -/
def processLevelDoc (db : DB) (class_id : Nat) (ld : LevelDoc) : DB :=
  let p := getOrCreateLevel db ld.name class_id
  processQuizDocs p.2 p.1.id ld.quizzes

/-- Folds `processLevelDoc` over the levels of a class document. -/
def processLevelDocs (db : DB) (class_id : Nat) : List LevelDoc → DB
  | [] => db
  | ld :: rest => processLevelDocs (processLevelDoc db class_id ld) class_id rest

/-- Processes one class document (`admin_utils.py` lines 420-478). -/
def processClassDoc (db : DB) (topic_id : Nat) (cd : ClassDoc) : DB :=
  let p := getOrCreateClass db cd.name topic_id
  processLevelDocs p.2 p.1.id cd.levels

/-- Folds `processClassDoc` over the classes of a topic document. -/
def processClassDocs (db : DB) (topic_id : Nat) : List ClassDoc → DB
  | [] => db
  | cd :: rest => processClassDocs (processClassDoc db topic_id cd) topic_id rest

/-- Processes one topic document (`admin_utils.py` lines 412-478). -/
def processTopicDoc (db : DB) (subject_id : Nat) (td : TopicDoc) : DB :=
  let p := getOrCreateTopic db td.name subject_id
  processClassDocs p.2 p.1.id td.classes

/-- Folds `processTopicDoc` over the topics of a subject document. -/
def processTopicDocs (db : DB) (subject_id : Nat) : List TopicDoc → DB
  | [] => db
  | td :: rest => processTopicDocs (processTopicDoc db subject_id td) subject_id rest

/-- Embedding of the whole `process_quiz_upload` walk
(`admin_utils.py` lines 397-488) on the success path. -/
def process_quiz_upload (db : DB) (doc : SubjectDoc) : DB :=
  let p := getOrCreateSubject db doc.name
  processTopicDocs p.2 p.1.id doc.topics

/-- The results list built by the scoring loop is the mapped grading of
the enumerated snapshot. -/
theorem submitGo_snd (ua : AnswerMap) (l : List (Nat × Question)) :
    (submitGo ua l).2 = l.map (fun p => gradeQuestion ua p.1 p.2) := by
  induction l with
  | nil => rfl
  | cons p rest ih => cases p with | mk i q => simp [submitGo, ih]

/-- The score accumulated by the loop counts the correct records. -/
theorem submitGo_fst (ua : AnswerMap) (l : List (Nat × Question)) :
    (submitGo ua l).1 = (submitGo ua l).2.countP (fun r => r.is_correct) := by
  induction l with
  | nil => rfl
  | cons p rest ih =>
    cases p with | mk i q =>
    simp only [submitGo, List.countP_cons, ih]
    cases h : (gradeQuestion ua i q).is_correct
    · simp [h]
    · simp [h, Nat.add_comm]

/-- One result record is emitted per snapshot question. -/
theorem submitCore_length (ua : AnswerMap) (questions : List Question) :
    (submitQuizResultsCore ua questions).2.length = questions.length := by
  simp [submitQuizResultsCore, submitGo_snd]

/-- The record at snapshot position `i` grades question `i`. -/
theorem submitCore_get (ua : AnswerMap) (questions : List Question) (i : Nat)
    (hq : i < questions.length)
    (hr : i < (submitQuizResultsCore ua questions).2.length) :
    (submitQuizResultsCore ua questions).2.get ⟨i, hr⟩ =
      gradeQuestion ua i (questions.get ⟨i, hq⟩) := by
  simp [submitQuizResultsCore, submitGo_snd, List.get_eq_getElem]

/-- A question with no recorded answer is never graded correct. -/
theorem gradeQuestion_unanswered (ua : AnswerMap) (i : Nat) (q : Question)
    (h : List.lookup i ua = none) : (gradeQuestion ua i q).is_correct = false := by
  simp [gradeQuestion, recordedAnswer, h]

/-- Claim C1: submitting computes, for each question in snapshot order,
the correct option index as the position (in id-ascending order) of the
answer flagged `is_correct`, defaulting to 0 when none is flagged; a
question is correct iff the recorded answer index equals that correct
index; an unanswered question carries the sentinel -1 and never counts
as correct; the score is the count of correct questions; and one result
record per question is emitted with the fields `question_id`,
`question`, `user_answer`, `correct_answer`, `is_correct`,
`explanation`. -/
theorem C1_submit_scoring (questions : List Question) (ua : AnswerMap) :
    (submitQuizResultsCore ua questions).2.length = questions.length ∧
    (submitQuizResultsCore ua questions).1 =
      (submitQuizResultsCore ua questions).2.countP (fun r => r.is_correct) ∧
    ∀ i, (hq : i < questions.length) →
      (hr : i < (submitQuizResultsCore ua questions).2.length) →
      ((submitQuizResultsCore ua questions).2.get ⟨i, hr⟩).question_id =
          (questions.get ⟨i, hq⟩).id ∧
      ((submitQuizResultsCore ua questions).2.get ⟨i, hr⟩).question =
          (questions.get ⟨i, hq⟩).question ∧
      ((submitQuizResultsCore ua questions).2.get ⟨i, hr⟩).correct_answer =
          (((questions.get ⟨i, hq⟩).answers.mergeSort
              (fun a b => a.id ≤ b.id)).findIdx?
              (fun a => a.is_correct)).getD 0 ∧
      ((submitQuizResultsCore ua questions).2.get ⟨i, hr⟩).user_answer =
          recordedAnswer ua i ∧
      (List.lookup i ua = none → recordedAnswer ua i = -1) ∧
      (((submitQuizResultsCore ua questions).2.get ⟨i, hr⟩).is_correct = true ↔
          recordedAnswer ua i =
            (((submitQuizResultsCore ua questions).2.get
                ⟨i, hr⟩).correct_answer : Int)) ∧
      (List.lookup i ua = none →
          ((submitQuizResultsCore ua questions).2.get ⟨i, hr⟩).is_correct
            = false) ∧
      ((submitQuizResultsCore ua questions).2.get ⟨i, hr⟩).explanation =
          ((questions.get ⟨i, hq⟩).explanation.getD "") := by
  refine ⟨submitCore_length ua questions,
    by simpa [submitQuizResultsCore] using
      submitGo_fst ua questions.enum, ?_⟩
  intro i hq hr
  rw [submitCore_get ua questions i hq hr]
  refine ⟨rfl, rfl, rfl, rfl, fun h => by simp [recordedAnswer, h], ?_, ?_, rfl⟩
  · simp [gradeQuestion]
  · exact gradeQuestion_unanswered ua i _

/-- Witness for C1 at a concrete two-question session: question 0 is
answered with the correct option, question 1 is unanswered and graded
incorrect. -/
theorem C1_submit_scoring_witness :
    ((submitQuizResultsCore [(0, 1)]
        [{ id := 5, question := "a", explanation := none,
           answers := [{ id := 1, text := "x", is_correct := false },
                       { id := 2, text := "y", is_correct := true }] },
         { id := 6, question := "b", explanation := none,
           answers := [{ id := 3, text := "u", is_correct := true },
                       { id := 4, text := "v", is_correct := false }] }]).2.get
        ⟨1, by decide⟩).is_correct = false :=
  ((C1_submit_scoring
      [{ id := 5, question := "a", explanation := none,
         answers := [{ id := 1, text := "x", is_correct := false },
                     { id := 2, text := "y", is_correct := true }] },
       { id := 6, question := "b", explanation := none,
         answers := [{ id := 3, text := "u", is_correct := true },
                     { id := 4, text := "v", is_correct := false }] }]
      [(0, 1)]).2.2 1 (by decide) (by decide)).2.2.2.2.2.2.1 (by decide)

/-- Claim C2 as stated is false: with a two-question snapshot and a
single recorded answer the explicit submit action is not available (the
code renders a disabled `1 Unanswered` button instead). -/
theorem C2_counterexample :
    submitButtonEnabled [(0, 0)]
      [{ id := 5, question := "a", explanation := none,
         answers := [{ id := 1, text := "x", is_correct := true }] },
       { id := 6, question := "b", explanation := none,
         answers := [{ id := 2, text := "y", is_correct := true }] }] = false := by
  decide

/-- Claim C2 (amended): the explicit submit action is permitted exactly
when the number of recorded answers equals the number of snapshot
questions; any question left unanswered at submission (reachable via
the timeout auto-submit) scores as incorrect. -/
theorem C2_submit_guard (ua : AnswerMap) (questions : List Question) :
    (submitButtonEnabled ua questions = true ↔
      List.length ua = questions.length) ∧
    (∀ i, (hq : i < questions.length) →
      (hr : i < (submitQuizResultsCore ua questions).2.length) →
      List.lookup i ua = none →
      ((submitQuizResultsCore ua questions).2.get ⟨i, hr⟩).is_correct
        = false) := by
  constructor
  · simp [submitButtonEnabled]
  · intro i hq hr h
    rw [submitCore_get ua questions i hq hr]
    exact gradeQuestion_unanswered ua i _ h

/-- Witness for C2 (amended): a fully answered one-question session may
submit, and in a session that timed out with no recorded answer the
single question is graded incorrect. -/
theorem C2_submit_guard_witness :
    submitButtonEnabled [(0, 0)]
      [{ id := 5, question := "a", explanation := none,
         answers := [{ id := 1, text := "x", is_correct := true }] }] = true ∧
    ((submitQuizResultsCore []
        [{ id := 5, question := "a", explanation := none,
           answers := [{ id := 1, text := "x", is_correct := true }] }]).2.get
        ⟨0, by decide⟩).is_correct = false :=
  ⟨(C2_submit_guard [(0, 0)]
      [{ id := 5, question := "a", explanation := none,
         answers := [{ id := 1, text := "x", is_correct := true }] }]).1.mpr
      (by decide),
   (C2_submit_guard []
      [{ id := 5, question := "a", explanation := none,
         answers := [{ id := 1, text := "x", is_correct := true }] }]).2 0
      (by decide) (by decide) (by decide)⟩

/-- Claim C3: on an empty question snapshot the scoring loop does yield
score 0 of 0, but the percentage computation is the unguarded division
`(score / len(questions)) * 100`, which raises `ZeroDivisionError`
(modelled by `none`) instead of yielding the percentage 0 the spec
requires. -/
theorem C3_empty_snapshot_percentage :
    (submitQuizResultsCore [] []).1 = 0 ∧
    ([] : List Question).length = 0 ∧
    submitPercentage (submitQuizResultsCore [] []).1 [] = none := by
  exact ⟨rfl, rfl, rfl⟩

/-- Claim C4: remaining time is `max(0, time_limit*60 - elapsed)`, the
auto-submit check fires exactly when the elapsed seconds reach
`time_limit*60`, and the timeout path produces the same score, result
list and total-question count as the manual path on the same recorded
answers, because both call the same scoring routine on the same session
state. -/
theorem C4_auto_submit (time_limit elapsed : Nat) (ua : AnswerMap)
    (questions : List Question) :
    (autoSubmitTriggered time_limit elapsed = true ↔
      time_limit * 60 ≤ elapsed) ∧
    remainingTime time_limit elapsed =
      max 0 ((time_limit * 60 : Int) - (elapsed : Int)) ∧
    autoSubmitOutcome ua questions = manualSubmitOutcome ua questions ∧
    (autoSubmitOutcome ua questions).2.length = questions.length := by
  refine ⟨?_, rfl, rfl, submitCore_length ua questions⟩
  simp only [autoSubmitTriggered, remainingTime, decide_eq_true_eq]
  omega

/-- Witness for C4: with a one-minute limit and 61 elapsed seconds the
auto-submit fires. -/
theorem C4_auto_submit_witness : autoSubmitTriggered 1 61 = true :=
  (C4_auto_submit 1 61 [] []).1.mpr (by decide)

/-- Claim C5: deleting a user fails with the last-admin-protected error
exactly when the target is an admin and the total admin count is one;
deleting an admin while at least one other admin exists succeeds. -/
theorem C5_last_admin_protected (users : List UserRow) (user_id : Nat)
    (u : UserRow) (h : users.find? (fun x => x.id == user_id) = some u) :
    ((delete_user users user_id).1 =
        (false, "Cannot delete the last admin user") ↔
      (u.is_admin = true ∧ users.countP (fun x => x.is_admin) = 1)) ∧
    (u.is_admin = true → 2 ≤ users.countP (fun x => x.is_admin) →
      (delete_user users user_id).1 = (true, "User deleted successfully")) := by
  have hmem : u ∈ users := List.mem_of_find?_eq_some h
  have hpos : u.is_admin = true → 0 < users.countP (fun x => x.is_admin) :=
    fun ha => List.countP_pos_iff.mpr ⟨u, hmem, ha⟩
  unfold delete_user
  rw [h]
  constructor
  · constructor
    · intro hres
      cases ha : u.is_admin with
      | false => simp [ha] at hres
      | true =>
        refine ⟨rfl, ?_⟩
        by_cases hc : users.countP (fun x => x.is_admin) ≤ 1
        · have := hpos ha
          omega
        · simp [ha, if_neg hc] at hres
    · rintro ⟨ha, hc⟩
      simp [ha, hc]
  · intro ha hc
    have hnot : ¬ users.countP (fun x => x.is_admin) ≤ 1 := by omega
    simp [ha, if_neg hnot]

/-- Witness for C5: deleting the sole admin of a one-user table is
refused. -/
theorem C5_last_admin_protected_witness :
    (delete_user
        [{ id := 1, username := "admin", password_hash := "h",
           is_admin := true }] 1).1 =
      (false, "Cannot delete the last admin user") :=
  (C5_last_admin_protected
      [{ id := 1, username := "admin", password_hash := "h",
         is_admin := true }] 1
      { id := 1, username := "admin", password_hash := "h", is_admin := true }
      (by decide)).1.mpr (by decide)

/-- Claim C9: updating a user with their own current username (with or
without an `is_admin` change) never hits the duplicate-username error;
supplying a username that a different user holds fails with the
duplicate error and leaves the table unchanged. -/
theorem C9_update_user_duplicate_check (users : List UserRow)
    (user_id : Nat) (u : UserRow)
    (h : users.find? (fun x => x.id == user_id) = some u) :
    (∀ adm : Option Bool,
      (update_user users user_id (some u.username) adm).1 =
        (true, "User updated successfully")) ∧
    (∀ un ex adm, un ≠ u.username →
      users.find? (fun x => x.username == un) = some ex → ex.id ≠ user_id →
      update_user users user_id (some un) adm =
        ((false, "Username already exists"), users)) := by
  constructor
  · intro adm
    unfold update_user
    rw [h]
    simp
  · intro un ex adm hne hex hexid
    unfold update_user
    rw [h]
    have : (ex.id != user_id) = true := by
      simpa using hexid
    simp [hne, hex, this]

/-- Witness for C9: renaming user 1 to their current name succeeds, and
renaming user 1 to user 2's name fails with the duplicate error leaving
the table unchanged. -/
theorem C9_update_user_duplicate_check_witness :
    (update_user
        [{ id := 1, username := "alice", password_hash := "h1", is_admin := false },
         { id := 2, username := "bob", password_hash := "h2", is_admin := false }]
        1 (some "alice") (some true)).1 =
      (true, "User updated successfully") ∧
    update_user
        [{ id := 1, username := "alice", password_hash := "h1", is_admin := false },
         { id := 2, username := "bob", password_hash := "h2", is_admin := false }]
        1 (some "bob") none =
      ((false, "Username already exists"),
        [{ id := 1, username := "alice", password_hash := "h1", is_admin := false },
         { id := 2, username := "bob", password_hash := "h2", is_admin := false }]) :=
  ⟨(C9_update_user_duplicate_check
      [{ id := 1, username := "alice", password_hash := "h1", is_admin := false },
       { id := 2, username := "bob", password_hash := "h2", is_admin := false }]
      1
      { id := 1, username := "alice", password_hash := "h1", is_admin := false }
      (by decide)).1 (some true),
   (C9_update_user_duplicate_check
      [{ id := 1, username := "alice", password_hash := "h1", is_admin := false },
       { id := 2, username := "bob", password_hash := "h2", is_admin := false }]
      1
      { id := 1, username := "alice", password_hash := "h1", is_admin := false }
      (by decide)).2 "bob"
      { id := 2, username := "bob", password_hash := "h2", is_admin := false }
      none (by decide) (by decide) (by decide)⟩

/-- Claim C10: deleting an existing non-admin user always succeeds, for
any table contents — the admin-count check runs only when the target is
an admin — so even the last remaining account can be deleted when it is
not an admin. -/
theorem C10_delete_non_admin (users : List UserRow) (user_id : Nat)
    (u : UserRow) (h : users.find? (fun x => x.id == user_id) = some u)
    (hadm : u.is_admin = false) :
    (delete_user users user_id).1 = (true, "User deleted successfully") ∧
    (delete_user users user_id).2 =
      users.filter (fun x => x.id != user_id) := by
  unfold delete_user
  rw [h]
  simp [hadm]

/-- Witness for C10: the single (non-admin) user of a one-user table can
be deleted, leaving the table empty. -/
theorem C10_delete_non_admin_witness :
    (delete_user
        [{ id := 7, username := "carol", password_hash := "h",
           is_admin := false }] 7).1 = (true, "User deleted successfully") ∧
    (delete_user
        [{ id := 7, username := "carol", password_hash := "h",
           is_admin := false }] 7).2 = [] :=
  have base := C10_delete_non_admin
    [{ id := 7, username := "carol", password_hash := "h", is_admin := false }]
    7 { id := 7, username := "carol", password_hash := "h", is_admin := false }
    (by decide) (by decide)
  ⟨base.1, by rw [base.2]; rfl⟩

/-- Sorting attempt rows with the descending-date comparison yields a
list that is pairwise descending in `date`. -/
theorem mergeSort_date_desc_pairwise (l : List AttemptRow) :
    (l.mergeSort (fun a b => b.date ≤ a.date)).Pairwise
      (fun a b => b.date ≤ a.date) := by
  have h := @List.sorted_mergeSort AttemptRow (fun a b => b.date ≤ a.date)
    (fun a b c h1 h2 =>
      decide_eq_true (Nat.le_trans (of_decide_eq_true h2) (of_decide_eq_true h1)))
    (fun a b => by
      rw [Bool.or_eq_true]
      exact (Nat.le_total b.date a.date).imp decide_eq_true decide_eq_true)
    l
  exact h.imp of_decide_eq_true

/-- Claim C7: the list of a user's attempts for a quiz consists of
exactly the matching rows ordered by date descending, and the
admin-wide list consists of all rows ordered by date descending. -/
theorem C7_attempts_sorted_desc (attempts : List AttemptRow)
    (user_id quiz_id : Nat) :
    (get_user_quiz_attempts attempts user_id quiz_id).Pairwise
      (fun a b => b.date ≤ a.date) ∧
    List.Perm (get_user_quiz_attempts attempts user_id quiz_id)
      (attempts.filter (fun a => a.user_id == user_id && a.quiz_id == quiz_id)) ∧
    (get_all_quiz_attempts attempts).Pairwise (fun a b => b.date ≤ a.date) ∧
    List.Perm (get_all_quiz_attempts attempts) attempts :=
  ⟨mergeSort_date_desc_pairwise _, List.mergeSort_perm _ _,
   mergeSort_date_desc_pairwise _, List.mergeSort_perm _ _⟩

/-- Inserting answer rows touches only the `answer` table and the id
sequence. -/
theorem insertAnswerRows_attempts (question_id correct_index : Nat) :
    ∀ (opts : List String) (i : Nat) (db : DB),
      (insertAnswerRows db question_id correct_index opts i).attempts =
        db.attempts := by
  intro opts
  induction opts with
  | nil => intro i db; rfl
  | cons o rest ih => intro i db; exact ih (i + 1) _

/-- Inserting the questions of an import document leaves the attempts
table unchanged. -/
theorem insertQuestionDocs_attempts (quiz_id : Nat) :
    ∀ (docs : List QuestionDoc) (db : DB),
      (insertQuestionDocs db quiz_id docs).attempts = db.attempts := by
  intro docs
  induction docs with
  | nil => intro db; rfl
  | cons d rest ih =>
    intro db
    rw [insertQuestionDocs, ih, insertAnswerRows_attempts]

/-- The score computed by the scoring loop never exceeds the snapshot
size. -/
theorem submitCore_score_le (ua : AnswerMap) (questions : List Question) :
    (submitQuizResultsCore ua questions).1 ≤ questions.length := by
  have h1 : (submitQuizResultsCore ua questions).1 =
      (submitQuizResultsCore ua questions).2.countP (fun r => r.is_correct) := by
    simpa [submitQuizResultsCore] using submitGo_fst ua questions.enum
  calc (submitQuizResultsCore ua questions).1
      = (submitQuizResultsCore ua questions).2.countP (fun r => r.is_correct) := h1
    _ ≤ (submitQuizResultsCore ua questions).2.length := List.countP_le_length _
    _ = questions.length := submitCore_length ua questions

/-- Claim C8: a submitted attempt satisfies `score ≤ total_questions`,
its stored `total_questions` is the size of the session's question
snapshot and its stored `score` the computed score; and every
question-editing operation (adding, updating or deleting a question,
or re-importing a quiz document) leaves already-stored attempt rows
untouched. -/
theorem C8_attempt_snapshot_invariants (questions : List Question)
    (ua : AnswerMap) (db : DB) (user_id quiz_id time_taken date : Nat) :
    (submitQuizResultsCore ua questions).1 ≤ questions.length ∧
    ((submit_quiz_attempt db user_id quiz_id
        (submitQuizResultsCore ua questions).1 questions.length
        time_taken date (submitQuizResultsCore ua questions).2).2.score =
      (submitQuizResultsCore ua questions).1 ∧
     (submit_quiz_attempt db user_id quiz_id
        (submitQuizResultsCore ua questions).1 questions.length
        time_taken date (submitQuizResultsCore ua questions).2).2.total_questions =
      questions.length ∧
     (submit_quiz_attempt db user_id quiz_id
        (submitQuizResultsCore ua questions).1 questions.length
        time_taken date (submitQuizResultsCore ua questions).2).2 ∈
      (submit_quiz_attempt db user_id quiz_id
        (submitQuizResultsCore ua questions).1 questions.length
        time_taken date (submitQuizResultsCore ua questions).2).1.attempts) ∧
    (∀ (db2 : DB) qz t opts ci ex,
      (add_question_to_quiz db2 qz t opts ci ex).attempts = db2.attempts) ∧
    (∀ (db2 : DB) qid2 t opts ci ex,
      (update_question db2 qid2 t opts ci ex).attempts = db2.attempts) ∧
    (∀ (db2 : DB) qid2, (delete_question db2 qid2).attempts = db2.attempts) ∧
    (∀ (db2 : DB) lid qd, (process_quiz_doc db2 lid qd).attempts = db2.attempts) := by
  refine ⟨submitCore_score_le ua questions, ⟨rfl, rfl, ?_⟩, ?_, ?_, ?_, ?_⟩
  · simp [submit_quiz_attempt]
  · intro db2 qz t opts ci ex
    rw [add_question_to_quiz, insertAnswerRows_attempts]
  · intro db2 qid2 t opts ci ex
    rw [update_question]
    cases h : db2.questions.find? (fun q => q.id == qid2) with
    | none => rfl
    | some q => rw [insertAnswerRows_attempts]
  · intro db2 qid2
    rfl
  · intro db2 lid qd
    rw [process_quiz_doc]
    cases h : db2.quizzes.find? (fun q => q.title == qd.title && q.level_id == lid) with
    | none => rw [insertQuestionDocs_attempts]
    | some q => rw [insertQuestionDocs_attempts]

/-- Witness for C8 at a concrete one-question session with no recorded
answers: score 0 of 1 is stored and sits inside the attempts table. -/
theorem C8_attempt_snapshot_invariants_witness :
    (submitQuizResultsCore []
      [{ id := 5, question := "a", explanation := none,
         answers := [{ id := 1, text := "x", is_correct := true }] }]).1 ≤ 1 :=
  (C8_attempt_snapshot_invariants
    [{ id := 5, question := "a", explanation := none,
       answers := [{ id := 1, text := "x", is_correct := true }] }]
    [] { subjects := [], topics := [], classes := [], levels := [],
         quizzes := [], questions := [], answers := [], attempts := [],
         users := [], next_id := 0 } 1 2 3 4).1

/-- Inserting answer rows leaves the question table unchanged. -/
theorem insertAnswerRows_questions (question_id correct_index : Nat) :
    ∀ (opts : List String) (i : Nat) (db : DB),
      (insertAnswerRows db question_id correct_index opts i).questions =
        db.questions := by
  intro opts
  induction opts with
  | nil => intro i db; rfl
  | cons o rest ih => intro i db; exact ih (i + 1) _

/-- Inserting answer rows leaves the quiz table unchanged. -/
theorem insertAnswerRows_quizzes (question_id correct_index : Nat) :
    ∀ (opts : List String) (i : Nat) (db : DB),
      (insertAnswerRows db question_id correct_index opts i).quizzes =
        db.quizzes := by
  intro opts
  induction opts with
  | nil => intro i db; rfl
  | cons o rest ih => intro i db; exact ih (i + 1) _

/-- Inserting an import document's questions leaves the quiz table
unchanged. -/
theorem insertQuestionDocs_quizzes (quiz_id : Nat) :
    ∀ (docs : List QuestionDoc) (db : DB),
      (insertQuestionDocs db quiz_id docs).quizzes = db.quizzes := by
  intro docs
  induction docs with
  | nil => intro db; rfl
  | cons d rest ih =>
    intro db
    rw [insertQuestionDocs, ih, insertAnswerRows_quizzes]

/-- Question texts and explanations attached to quiz `quiz_id` after
inserting an import document's questions: the rows already present
followed by the document's questions, in order. -/
theorem insertQuestionDocs_filter_map (quiz_id : Nat) :
    ∀ (docs : List QuestionDoc) (db : DB),
      ((insertQuestionDocs db quiz_id docs).questions.filter
          (fun x => x.quiz_id == quiz_id)).map
          (fun x => (x.question, x.explanation)) =
        (db.questions.filter (fun x => x.quiz_id == quiz_id)).map
          (fun x => (x.question, x.explanation)) ++
          docs.map (fun d => (d.question, d.explanation.getD "")) := by
  intro docs
  induction docs with
  | nil => intro db; simp [insertQuestionDocs]
  | cons d rest ih =>
    intro db
    rw [insertQuestionDocs]
    rw [ih, insertAnswerRows_questions]
    simp [List.filter_append, List.map_append]

/-- Rows kept by the deletion filter never match the deleted quiz id. -/
theorem filter_ne_then_eq_nil (l : List QuestionRow) (quiz_id : Nat) :
    (l.filter (fun x => x.quiz_id != quiz_id)).filter
      (fun x => x.quiz_id == quiz_id) = [] := by
  refine List.filter_eq_nil_iff.mpr ?_
  intro a ha
  have h := List.of_mem_filter ha
  simp only [bne_iff_ne, ne_eq] at h
  simp [h]

/-- Claim C6: re-running the bulk import against a state that already
holds a quiz with the document's title under the same level updates
that quiz's description and time limit and fully replaces its question
set instead of creating a second quiz with the same title and level; a
quiz absent by its natural key is created; and the subject, topic,
class and level lookups reuse the row matched by natural key, creating
it only when absent. -/
theorem C6_bulk_import_upsert (db : DB) (level_id : Nat) (qd : QuizDoc) :
    (∀ existing,
      db.quizzes.find? (fun q => q.title == qd.title && q.level_id == level_id) =
          some existing →
      (process_quiz_doc db level_id qd).quizzes.length = db.quizzes.length ∧
      (∃ q ∈ (process_quiz_doc db level_id qd).quizzes,
        q.id = existing.id ∧ q.title = existing.title ∧
        q.level_id = existing.level_id ∧
        q.description = qd.description.getD "" ∧
        q.time_limit = qd.time_limit.getD 30) ∧
      ((process_quiz_doc db level_id qd).questions.filter
          (fun x => x.quiz_id == existing.id)).map
          (fun x => (x.question, x.explanation)) =
        qd.questions.map (fun d => (d.question, d.explanation.getD ""))) ∧
    (db.quizzes.find? (fun q => q.title == qd.title && q.level_id == level_id) =
        none →
      ∃ q ∈ (process_quiz_doc db level_id qd).quizzes,
        q.title = qd.title ∧ q.level_id = level_id ∧
        q.description = qd.description.getD "" ∧
        q.time_limit = qd.time_limit.getD 30) ∧
    (∀ name s, db.subjects.find? (fun x => x.name == name) = some s →
      getOrCreateSubject db name = (s, db)) ∧
    (∀ name, db.subjects.find? (fun x => x.name == name) = none →
      (getOrCreateSubject db name).1.name = name ∧
      (getOrCreateSubject db name).1 ∈ (getOrCreateSubject db name).2.subjects) ∧
    (∀ name sid t,
      db.topics.find? (fun x => x.name == name && x.subject_id == sid) = some t →
      getOrCreateTopic db name sid = (t, db)) ∧
    (∀ name sid,
      db.topics.find? (fun x => x.name == name && x.subject_id == sid) = none →
      (getOrCreateTopic db name sid).1.name = name ∧
      (getOrCreateTopic db name sid).1.subject_id = sid ∧
      (getOrCreateTopic db name sid).1 ∈ (getOrCreateTopic db name sid).2.topics) ∧
    (∀ name tid c,
      db.classes.find? (fun x => x.name == name && x.topic_id == tid) = some c →
      getOrCreateClass db name tid = (c, db)) ∧
    (∀ name tid,
      db.classes.find? (fun x => x.name == name && x.topic_id == tid) = none →
      (getOrCreateClass db name tid).1.name = name ∧
      (getOrCreateClass db name tid).1.topic_id = tid ∧
      (getOrCreateClass db name tid).1 ∈ (getOrCreateClass db name tid).2.classes) ∧
    (∀ name cid l,
      db.levels.find? (fun x => x.name == name && x.class_id == cid) = some l →
      getOrCreateLevel db name cid = (l, db)) ∧
    (∀ name cid,
      db.levels.find? (fun x => x.name == name && x.class_id == cid) = none →
      (getOrCreateLevel db name cid).1.name = name ∧
      (getOrCreateLevel db name cid).1.class_id = cid ∧
      (getOrCreateLevel db name cid).1 ∈ (getOrCreateLevel db name cid).2.levels) := by
  refine ⟨?_, ?_, ?_, ?_, ?_, ?_, ?_, ?_, ?_, ?_⟩
  · intro existing hfind
    have hmem := List.mem_of_find?_eq_some hfind
    simp only [process_quiz_doc, hfind]
    refine ⟨?_, ?_, ?_⟩
    · rw [insertQuestionDocs_quizzes]
      simp
    · rw [insertQuestionDocs_quizzes]
      refine ⟨(fun q => if q.id == existing.id then
          { q with description := qd.description.getD "",
                   time_limit := qd.time_limit.getD 30 }
        else q) existing, List.mem_map_of_mem _ hmem, ?_⟩
      simp
    · rw [insertQuestionDocs_filter_map]
      simp [filter_ne_then_eq_nil]
  · intro hfind
    simp only [process_quiz_doc, hfind]
    refine ⟨{ id := db.next_id, title := qd.title,
              description := qd.description.getD "",
              time_limit := qd.time_limit.getD 30, level_id := level_id },
            ?_, rfl, rfl, rfl, rfl⟩
    rw [insertQuestionDocs_quizzes]
    simp
  · intro name s h
    simp [getOrCreateSubject, h]
  · intro name h
    simp [getOrCreateSubject, h]
  · intro name sid t h
    simp [getOrCreateTopic, h]
  · intro name sid h
    simp [getOrCreateTopic, h]
  · intro name tid c h
    simp [getOrCreateClass, h]
  · intro name tid h
    simp [getOrCreateClass, h]
  · intro name cid l h
    simp [getOrCreateLevel, h]
  · intro name cid h
    simp [getOrCreateLevel, h]

/-- Witness for C6: re-importing a one-question quiz document over a
state already holding that quiz (with an old question) keeps a single
quiz row and replaces the question set with the document's question. -/
theorem C6_bulk_import_upsert_witness :
    (process_quiz_doc
        { subjects := [], topics := [], classes := [],
          levels := [{ id := 1, name := "L", class_id := 0 }],
          quizzes := [{ id := 2, title := "T", description := "old",
                        time_limit := 10, level_id := 1 }],
          questions := [{ id := 3, question := "oldq", quiz_id := 2,
                          explanation := "olde" }],
          answers := [], attempts := [], users := [], next_id := 4 }
        1
        { title := "T", description := some "new", time_limit := some 20,
          questions := [{ question := "newq", options := ["a", "b"],
                          answer := 1, explanation := some "newe" }] }).quizzes.length
      = 1 ∧
    ((process_quiz_doc
        { subjects := [], topics := [], classes := [],
          levels := [{ id := 1, name := "L", class_id := 0 }],
          quizzes := [{ id := 2, title := "T", description := "old",
                        time_limit := 10, level_id := 1 }],
          questions := [{ id := 3, question := "oldq", quiz_id := 2,
                          explanation := "olde" }],
          answers := [], attempts := [], users := [], next_id := 4 }
        1
        { title := "T", description := some "new", time_limit := some 20,
          questions := [{ question := "newq", options := ["a", "b"],
                          answer := 1, explanation := some "newe" }] }).questions.filter
        (fun x => x.quiz_id == 2)).map (fun x => (x.question, x.explanation)) =
      [("newq", "newe")] :=
  have base := (C6_bulk_import_upsert
    { subjects := [], topics := [], classes := [],
      levels := [{ id := 1, name := "L", class_id := 0 }],
      quizzes := [{ id := 2, title := "T", description := "old",
                    time_limit := 10, level_id := 1 }],
      questions := [{ id := 3, question := "oldq", quiz_id := 2,
                      explanation := "olde" }],
      answers := [], attempts := [], users := [], next_id := 4 }
    1
    { title := "T", description := some "new", time_limit := some 20,
      questions := [{ question := "newq", options := ["a", "b"],
                      answer := 1, explanation := some "newe" }] }).1
    { id := 2, title := "T", description := "old", time_limit := 10,
      level_id := 1 }
    (by decide)
  ⟨base.1, base.2.2⟩

end OlympiadQuiz
